import Mathlib

/-!
Shallow embedding of `src/dungeon_generator/models.py` (dungeon_1_py).

Modelling conventions:
* Python `int` is `Int`; list indices and draw counters are `Nat`.
* A `dict` keyed by coordinates is an association list `List (Pos × Habitacion)`;
  `random.sample` always yields distinct keys, so lookups agree with the dict.
* Room references (`conexiones` values, `habitacion_inicial`) are modelled by the
  room's coordinate key, resolved through the map, as every consumer of a
  reference only reads the room found at those coordinates.
* Randomness is passed explicitly: each `random.choice(lst)` draw is an index
  reduced mod `lst.length`, `random.randint(a,b)` is `a + draw % (b-a+1)`, and
  `random.random()` is a rational in the unit interval.
* Methods that mutate `self` take the object and return the updated object;
  a method that can `raise` returns `Except`, the error carrying the state of
  the object at the moment the exception propagates.
* Loops whose iteration count is not syntactically bounded (the combat loops
  and the breadth-first search) take fuel; the BFS fuel is chosen to dominate
  every possible number of iterations, so it never cuts the search short.
-/

abbrev Pos := Int × Int

/-- `Objeto` dataclass: a collectible item. -/
structure Objeto where
  nombre : String
  valor : Int
  descripcion : String
deriving DecidableEq, Repr

/-- The room-content class hierarchy (`ContenidoHabitacion` and its three
subclasses `Tesoro`, `Monstruo`, `Jefe`) as a sum type; only these three
variants are ever stored in a room by the generator. -/
inductive ContenidoHabitacion where
  | tesoro (recompensa : Objeto)
  | monstruo (nombre : String) (vida : Int) (ataque : Int)
  | jefe (nombre : String) (vida : Int) (ataque : Int) (recompensa_especial : Objeto)
deriving DecidableEq, Repr

/-- `Habitacion` dataclass. `conexiones` maps a direction label to the
coordinates of the neighbouring room (see the file header). -/
structure Habitacion where
  id : Nat
  x : Int
  y : Int
  inicial : Bool := false
  contenido : Option ContenidoHabitacion := none
  conexiones : List (String × Pos) := []
  visitada : Bool := false
deriving DecidableEq, Repr

/-- `Mapa` dataclass; `habitacion_inicial` stores the start room's key. -/
structure Mapa where
  ancho : Int
  alto : Int
  habitaciones : List (Pos × Habitacion) := []
  habitacion_inicial : Option Pos := none
deriving DecidableEq, Repr

/-- `Explorador` dataclass (the `mapa` back-reference is passed explicitly to
each method instead of being stored). -/
structure Explorador where
  posicion_actual : Pos
  vida : Int := 5
  inventario : List Objeto := []
deriving DecidableEq, Repr

/-- Dictionary lookup (`d.get(k)` / `d[k]`): first entry with the given key. -/
def buscar {κ β : Type} [DecidableEq κ] (l : List (κ × β)) (k : κ) : Option β :=
  match l with
  | [] => none
  | kv :: rest => if kv.1 = k then some kv.2 else buscar rest k

/-- In-place update of the entry stored under key `p` (all entries with that
key; generated maps have distinct keys, so this is the dict mutation). -/
def actualizar {κ β : Type} [DecidableEq κ] (l : List (κ × β)) (p : κ) (f : β → β) :
    List (κ × β) :=
  l.map (fun kv => if kv.1 = p then (kv.1, f kv.2) else kv)

/-! ## Map generation (`Mapa.generar_estructura`) -/

/-- `[(x, y) for x in range(self.ancho) for y in range(self.alto)]`. -/
def todas_posiciones (m : Mapa) : List Pos :=
  (List.range m.ancho.toNat).flatMap
    (fun x => (List.range m.alto.toNat).map (fun y => ((x : Int), (y : Int))))

/-- The border test used for `posiciones_borde`:
`pos[0] == 0 or pos[0] == ancho-1 or pos[1] == 0 or pos[1] == alto-1`. -/
def es_borde (m : Mapa) (p : Pos) : Bool :=
  p.1 == 0 || p.1 == m.ancho - 1 || p.2 == 0 || p.2 == m.alto - 1

/-- The `direcciones` dict, in insertion order. -/
def direcciones : List (String × (Int × Int)) :=
  [("norte", (0, -1)), ("sur", (0, 1)), ("este", (1, 0)), ("oeste", (-1, 0))]

/-- The connection loop for one room: every direction whose neighbouring cell
is a key of the rooms dict (whose key set is the sample) gets an entry. -/
def conectar_en (claves : List Pos) (p : Pos) : List (String × Pos) :=
  direcciones.filterMap (fun dv =>
    let vecino := (p.1 + dv.2.1, p.2 + dv.2.2)
    if vecino ∈ claves then some (dv.1, vecino) else none)

/-- Start-cell selection: `random.choice(posiciones_borde)` if the border
subset is non-empty (the draw `k` indexes it), else `posiciones_habitaciones[0]`
(`none` when the sample is empty, where the source raises `IndexError`). -/
def pos_inicial_de (m : Mapa) (sample : List Pos) (k : Nat) : Option Pos :=
  let posiciones_borde := sample.filter (es_borde m)
  match posiciones_borde with
  | [] => sample.head?
  | _ :: _ => posiciones_borde.get? (k % posiciones_borde.length)

/-- The `enumerate` loop creating one room per sampled cell, ids sequential
from `i`, the start flag from comparing with the chosen start cell. -/
def construir_base (pos_inicial : Pos) : List Pos → Nat → List (Pos × Habitacion)
  | [], _ => []
  | p :: rest, i =>
    (p, Habitacion.mk i p.1 p.2 (decide (p = pos_inicial)) none [] false)
      :: construir_base pos_inicial rest (i + 1)

/-- Room creation (`enumerate` loop) followed by the connection loop. -/
def construir_habitaciones (sample : List Pos) (pos_inicial : Pos) :
    List (Pos × Habitacion) :=
  (construir_base pos_inicial sample 0).map
    (fun ph => (ph.1, { ph.2 with conexiones := conectar_en sample ph.1 }))

/-- The state of `self` once rooms and connections are built: the old rooms
were cleared at the start and replaced, and the start reference was set while
iterating (hence `some` exactly when the chosen cell occurs in the sample). -/
def mapa_construido (m : Mapa) (sample : List Pos) (pos_inicial : Pos) : Mapa :=
  { m with
    habitaciones := construir_habitaciones sample pos_inicial,
    habitacion_inicial := if pos_inicial ∈ sample then some pos_inicial else none }

/-- One step of the reachability check: pop the queue head, record it if new and
push its still-unvisited neighbours. Fuel bounds the iteration count; `recorrido`
passes more fuel than any run can use, so the search always completes. -/
def bfs_loop (habs : List (Pos × Habitacion)) : Nat → List Pos → List Pos → List Pos
  | 0, _, visitadas => visitadas
  | _ + 1, [], visitadas => visitadas
  | fuel + 1, p :: cola, visitadas =>
    if p ∈ visitadas then bfs_loop habs fuel cola visitadas
    else
      let visitadas' := p :: visitadas
      let vecinos :=
        (match buscar habs p with
          | some h => h.conexiones.map Prod.snd
          | none => []).filter (fun v => decide (v ∉ visitadas'))
      bfs_loop habs fuel (cola ++ vecinos) visitadas'

/-- The breadth-first traversal of the accessibility check, from the start
room. The fuel `1 + Σ |conexiones|` dominates the number of queue insertions,
hence the number of iterations, so it is never exhausted. Only membership and
cardinality of the visited set are consumed downstream. -/
def recorrido (m : Mapa) : List Pos :=
  match m.habitacion_inicial with
  | none => []
  | some p =>
    bfs_loop m.habitaciones
      (1 + (m.habitaciones.map (fun ph => ph.2.conexiones.length)).sum) [p] []

/-- The exceptions `generar_estructura` can raise: the two `ValueError`s of the
precondition checks, the `IndexError` of `posiciones_habitaciones[0]` on an
empty sample, and the two explicit `Exception`s. -/
inductive GenError where
  | invalidConfiguration (msg : String)
  | indexError
  | startRoomMissing
  | disconnected (accesibles : Nat)
deriving DecidableEq, Repr

/-- `Mapa.generar_estructura(n_habitaciones)`. `sample` is the value returned
by `random.sample(todas_posiciones, n_habitaciones)` (distinct cells, length
`n`), `k` the draw of `random.choice(posiciones_borde)`. An error carries the
state of `self` at the moment the exception propagates. -/
def generar_estructura (m : Mapa) (n : Int) (sample : List Pos) (k : Nat) :
    Except (GenError × Mapa) Mapa :=
  if n > m.ancho * m.alto then
    .error (.invalidConfiguration
      ("No se pueden crear " ++ toString n ++ " habitaciones en un mapa de "
        ++ toString m.ancho ++ "x" ++ toString m.alto), m)
  else if n < 1 then
    .error (.invalidConfiguration "Debe haber al menos 1 habitacion", m)
  else
    match pos_inicial_de m sample k with
    | none => .error (.indexError, { m with habitaciones := [], habitacion_inicial := none })
    | some pos_inicial =>
      if (mapa_construido m sample pos_inicial).habitacion_inicial = none then
        .error (.startRoomMissing, mapa_construido m sample pos_inicial)
      else if ((recorrido (mapa_construido m sample pos_inicial)).length : Int) ≠ n then
        .error (.disconnected (recorrido (mapa_construido m sample pos_inicial)).length,
          mapa_construido m sample pos_inicial)
      else .ok (mapa_construido m sample pos_inicial)

/-! ## Content placement (`Mapa.colocar_contenido`) -/

/-- `Mapa._obtener_esquinas()`. -/
def obtener_esquinas (m : Mapa) : List Pos :=
  [(0, 0), (0, m.alto - 1), (m.ancho - 1, 0), (m.ancho - 1, m.alto - 1)]

/-- All draws consumed by `colocar_contenido`, one field per call site of the
`random` module (indexed draws for the per-iteration calls). -/
structure DrawsContenido where
  esquinaIdx : Nat
  jefeNombreIdx : Nat
  jefeRecompensaIdx : Nat
  monstruoHabIdx : Nat → Nat
  monstruoNombreIdx : Nat → Nat
  monstruoVidaDraw : Nat → Nat
  monstruoAtaqueDraw : Nat → Nat
  tesoroHabIdx : Nat → Nat
  tesoroObjetoIdx : Nat → Nat

/-- `Mapa._crear_jefe_aleatorio()`: fixed stats `vida=5, ataque=2`, name and
reward drawn from fixed pools. -/
def crear_jefe (ni ri : Nat) : ContenidoHabitacion :=
  let nombres := ["Rey Goblin", "Dragon Antiguo", "Rey Lich"]
  let recompensas := [
    Objeto.mk "Corona Dorada" 100
      "Corona del rey Goblin que ha sido derrotado por un poderoso guerrero.",
    Objeto.mk "Gema del Poder" 250
      "Gema mágica muy valiosa hecha de las escamas de un dragon",
    Objeto.mk "Espada Legendaria" 200 "Arma de gran poder de un monarca de la noche"]
  ContenidoHabitacion.jefe (nombres.getD (ni % nombres.length) "") 5 2
    (recompensas.getD (ri % recompensas.length) (Objeto.mk "" 0 ""))

/-- `Mapa._crear_monstruo_aleatorio()`: name from a pool of five,
`vida = randint(2,4)`, `ataque = randint(1,2)`. -/
def crear_monstruo (ni vd ad : Nat) : ContenidoHabitacion :=
  let nombres := ["Goblin", "Orco", "Esqueleto", "Araña Gigante", "Ghoul"]
  ContenidoHabitacion.monstruo (nombres.getD (ni % nombres.length) "")
    (2 + (vd % 3 : Nat)) (1 + (ad % 2 : Nat))

/-- `Mapa._crear_tesoro_aleatorio()`: one item from a pool of four. -/
def crear_tesoro (oi : Nat) : ContenidoHabitacion :=
  let objetos := [
    Objeto.mk "Monedas de Oro" 25 "Monedas brillantes",
    Objeto.mk "Poción de Vida" 15 "Restaura energía",
    Objeto.mk "Gema Preciosa" 50 "Una gema valiosa",
    Objeto.mk "Espada de Hierro" 30 "Arma básica pero útil"]
  ContenidoHabitacion.tesoro (objetos.getD (oi % objetos.length) (Objeto.mk "" 0 ""))

/-- Store the given content in the room at key `p`. -/
def fijar_contenido (habs : List (Pos × Habitacion)) (p : Pos)
    (c : Option ContenidoHabitacion) : List (Pos × Habitacion) :=
  actualizar habs p (fun h => { h with contenido := c })

/-- The monster loop: `count` times, pick a random still-available room,
store a fresh monster there and drop it from the candidate list.
`random.choice` raises on an empty list, which the loop bound rules out;
that dead branch returns the state unchanged. -/
def monstruo_loop (d : DrawsContenido) :
    Nat → List (Pos × Habitacion) → List Pos → Nat →
      List (Pos × Habitacion) × List Pos
  | 0, habs, restantes, _ => (habs, restantes)
  | _ + 1, habs, [], _ => (habs, [])
  | c + 1, habs, restantes, iter =>
    let j := d.monstruoHabIdx iter % restantes.length
    match restantes.get? j with
    | none => (habs, restantes)
    | some p =>
      monstruo_loop d c
        (fijar_contenido habs p (some (crear_monstruo (d.monstruoNombreIdx iter)
          (d.monstruoVidaDraw iter) (d.monstruoAtaqueDraw iter))))
        (restantes.eraseIdx j) (iter + 1)

/-- The treasure loop, same shape as the monster loop. -/
def tesoro_loop (d : DrawsContenido) :
    Nat → List (Pos × Habitacion) → List Pos → Nat →
      List (Pos × Habitacion) × List Pos
  | 0, habs, restantes, _ => (habs, restantes)
  | _ + 1, habs, [], _ => (habs, [])
  | c + 1, habs, restantes, iter =>
    let j := d.tesoroHabIdx iter % restantes.length
    match restantes.get? j with
    | none => (habs, restantes)
    | some p =>
      tesoro_loop d c
        (fijar_contenido habs p (some (crear_tesoro (d.tesoroObjetoIdx iter))))
        (restantes.eraseIdx j) (iter + 1)

/-- The corner drawn by `random.choice(self._obtener_esquinas())` (the list
always has four entries, so the fallback value is never consulted). -/
def elegir_esquina (m : Mapa) (d : DrawsContenido) : Pos :=
  (obtener_esquinas m).getD (d.esquinaIdx % (obtener_esquinas m).length) (0, 0)

/-- The non-start rooms (`habitaciones_disponibles`), as keys in dict order. -/
def habitaciones_disponibles (m : Mapa) : List Pos :=
  (m.habitaciones.filter (fun ph => !ph.2.inicial)).map Prod.fst

/-- The boss step: one corner is drawn among the four corners of the grid; a
boss is stored there exactly when that corner is a key of the rooms dict (the
start flag is not consulted). -/
def habs_tras_jefe (m : Mapa) (d : DrawsContenido) : List (Pos × Habitacion) :=
  if (buscar m.habitaciones (elegir_esquina m d)).isSome then
    fijar_contenido m.habitaciones (elegir_esquina m d)
      (some (crear_jefe d.jefeNombreIdx d.jefeRecompensaIdx))
  else m.habitaciones

/-- `habitaciones_restantes`: the non-start rooms still without content after
the boss step (the lookup cannot miss, as the keys come from the dict). -/
def restantes_tras_jefe (m : Mapa) (d : DrawsContenido) : List Pos :=
  (habitaciones_disponibles m).filter (fun p =>
    match buscar (habs_tras_jefe m d) p with
    | some h => h.contenido.isNone
    | none => false)

/-- The monster step: `min(max(1, |restantes| // 4), |restantes|)` placements. -/
def paso_monstruos (m : Mapa) (d : DrawsContenido) :
    List (Pos × Habitacion) × List Pos :=
  monstruo_loop d
    (min (max 1 ((restantes_tras_jefe m d).length / 4)) (restantes_tras_jefe m d).length)
    (habs_tras_jefe m d) (restantes_tras_jefe m d) 0

/-- The treasure step over what the monster step left. -/
def paso_tesoros (m : Mapa) (d : DrawsContenido) :
    List (Pos × Habitacion) × List Pos :=
  tesoro_loop d
    (min (max 1 ((paso_monstruos m d).2.length / 5)) (paso_monstruos m d).2.length)
    (paso_monstruos m d).1 (paso_monstruos m d).2 0

/-- `Mapa.colocar_contenido()`: early return when every room is the start
room; then the boss step, the monster step over the still-empty non-start
rooms, and the treasure step over what remains. -/
def colocar_contenido (m : Mapa) (d : DrawsContenido) : Mapa :=
  if habitaciones_disponibles m = [] then m
  else { m with habitaciones := (paso_tesoros m d).1 }

/-- Is this room content a boss? -/
def es_jefe : Option ContenidoHabitacion → Bool
  | some (ContenidoHabitacion.jefe _ _ _ _) => true
  | _ => false

/-- Is this room content a treasure? -/
def es_tesoro : Option ContenidoHabitacion → Bool
  | some (ContenidoHabitacion.tesoro _) => true
  | _ => false

/-- Is this room content a monster (a proper one, not a boss)? -/
def es_monstruo : Option ContenidoHabitacion → Bool
  | some (ContenidoHabitacion.monstruo _ _ _) => true
  | _ => false

/-- The content of the room stored at `p` (`none` when there is no room). -/
def contenido_en (habs : List (Pos × Habitacion)) (p : Pos) :
    Option (Option ContenidoHabitacion) :=
  (buscar habs p).map (fun h => h.contenido)

/-! ## Explorer (`Explorador`) and encounter resolution -/

/-- `Explorador.recibir_dano(cantidad)`: subtract, then floor at 0. -/
def recibir_dano (e : Explorador) (cantidad : Int) : Explorador :=
  let v := e.vida - cantidad
  { e with vida := if v < 0 then 0 else v }

/-- `Explorador.esta_vivo` property. -/
def esta_vivo (e : Explorador) : Bool :=
  e.vida > 0

/-- `Explorador.mover(direccion)`. The final lookup resolves the stored
connection key to its room; in the source the connection holds the room object
itself, so that lookup cannot fail on any map whose connections point at
existing rooms (all generated maps). -/
def mover (m : Mapa) (e : Explorador) (direccion : String) : Bool × Explorador :=
  match buscar m.habitaciones e.posicion_actual with
  | none => (false, e)
  | some habitacion_actual =>
    match buscar habitacion_actual.conexiones direccion with
    | none => (false, e)
    | some destino_pos =>
      match buscar m.habitaciones destino_pos with
      | none => (false, e)
      | some destino => (true, { e with posicion_actual := (destino.x, destino.y) })

/-- `Explorador.obtener_habitaciones_adyacentes()`. -/
def obtener_habitaciones_adyacentes (m : Mapa) (e : Explorador) : List String :=
  match buscar m.habitaciones e.posicion_actual with
  | none => []
  | some habitacion_actual => habitacion_actual.conexiones.map Prod.fst

/-- The `while` loop shared by `Monstruo.interactuar` (success chance 0.6) and
`Jefe.interactuar` (0.4): while the enemy lives and the explorer lives, one
draw either decrements the enemy's health or damages the explorer; each round
appends its line to the transcript. `draws i` is the i-th `random.random()`
value; `none` means the fuel ran out before the loop exited. -/
def combate (prob : ℚ) (ataque : Int) (linea_golpe : Int → String)
    (linea_dano : Int → String) :
    Nat → Int → Explorador → (Nat → ℚ) → Nat → List String →
      Option (Int × Explorador × List String × Nat)
  | 0, enemigo_vida, e, _, i, acc =>
    if 0 < enemigo_vida ∧ esta_vivo e then none else some (enemigo_vida, e, acc, i)
  | fuel + 1, enemigo_vida, e, draws, i, acc =>
    if 0 < enemigo_vida ∧ esta_vivo e then
      if draws i < prob then
        combate prob ataque linea_golpe linea_dano fuel (enemigo_vida - 1) e draws
          (i + 1) (acc ++ [linea_golpe (enemigo_vida - 1)])
      else
        let e' := recibir_dano e ataque
        combate prob ataque linea_golpe linea_dano fuel enemigo_vida e' draws
          (i + 1) (acc ++ [linea_dano e'.vida])
    else some (enemigo_vida, e, acc, i)

/-- `Monstruo.interactuar(explorador)`. -/
def monstruo_interactuar (nombre : String) (vida ataque : Int) (e : Explorador)
    (draws : Nat → ℚ) (i fuel : Nat) : Option (Explorador × String × Nat) :=
  let intro := "Alerta, te enfrentas a " ++ nombre ++ " :o"
  match combate (3 / 5) ataque
      (fun mv => "Atacas a " ++ nombre ++ ". Vida del enemigo: " ++ toString mv)
      (fun ev => nombre ++ " te inflinge " ++ toString ataque
        ++ " de daño. Tu vida: " ++ toString ev)
      fuel vida e draws i [intro] with
  | none => none
  | some (_, e', acc, i') =>
    let fin :=
      if ¬ esta_vivo e' then "Has perdido... " ++ nombre ++ " te ha derrotado :()"
      else "Has derrotado a " ++ nombre ++ " :3"
    some (e', String.intercalate "\n" (acc ++ [fin]), i')

/-- `Jefe.interactuar(explorador)`: the same loop with chance 0.4, and on an
explorer victory the special reward, plus a 0.3-chance duplicate of it. -/
def jefe_interactuar (nombre : String) (vida ataque : Int) (recompensa : Objeto)
    (e : Explorador) (draws : Nat → ℚ) (i fuel : Nat) :
    Option (Explorador × String × Nat) :=
  let intro := "PELIGRO! Te enfrentas a uno de los jefes de la mazmorra, "
    ++ nombre ++ " :o"
  match combate (2 / 5) ataque
      (fun jv => "Atacaste a " ++ nombre ++ ". Vida del jefe: " ++ toString jv)
      (fun ev => "El jefe " ++ nombre ++ " te inflinge " ++ toString ataque
        ++ " de daño. Tu vida: " ++ toString ev)
      fuel vida e draws i [intro] with
  | none => none
  | some (_, e', acc, i') =>
    if ¬ esta_vivo e' then
      some (e', String.intercalate "\n"
        (acc ++ ["Has sido derrotado por el jefe " ++ nombre ++ "!!"]), i')
    else
      let e'' := { e' with inventario := e'.inventario ++ [recompensa] }
      let acc' := acc ++ ["¡Has derrotado al jefe " ++ nombre ++ "!",
        "Felicidades, obtuviste una recompensa especial ---> <"
          ++ recompensa.nombre ++ ">!"]
      if draws i' < 3 / 10 then
        some ({ e'' with inventario := e''.inventario ++ [recompensa] },
          String.intercalate "\n"
            (acc' ++ ["¡BONIFICACIÓN! ¡Obtuviste una segunda recompensa especial!"]),
          i' + 1)
      else
        some (e'', String.intercalate "\n" acc', i' + 1)

/-- Dynamic dispatch on the content's class (`contenido.interactuar(self)`).
`Tesoro.interactuar` appends the reward and consumes no draw. -/
def interactuar (c : ContenidoHabitacion) (e : Explorador) (draws : Nat → ℚ)
    (i fuel : Nat) : Option (Explorador × String × Nat) :=
  match c with
  | .tesoro recompensa =>
    some ({ e with inventario := e.inventario ++ [recompensa] },
      "Has encontrado un tesoro! Obtuviste -> " ++ recompensa.nombre, i)
  | .monstruo nombre vida ataque => monstruo_interactuar nombre vida ataque e draws i fuel
  | .jefe nombre vida ataque recompensa =>
    jefe_interactuar nombre vida ataque recompensa e draws i fuel

/-- Mark the room at `p` as visited. -/
def marcar_visitada (habs : List (Pos × Habitacion)) (p : Pos) :
    List (Pos × Habitacion) :=
  actualizar habs p (fun h => { h with visitada := true })

/-- Clear the content of the room at `p` (the source's `isinstance` guard is
satisfied by every value of the content sum type). -/
def limpiar_contenido (habs : List (Pos × Habitacion)) (p : Pos) :
    List (Pos × Habitacion) :=
  actualizar habs p (fun h => { h with contenido := none })

/-- `Explorador.explorar_habitacion()`: no room → message only; always mark
visited; empty content → dust message; otherwise interact and then clear the
content. Returns the updated explorer and map, the transcript, and the index
of the next unused random draw. -/
def explorar_habitacion (m : Mapa) (e : Explorador) (draws : Nat → ℚ)
    (i fuel : Nat) : Option (Explorador × Mapa × String × Nat) :=
  match buscar m.habitaciones e.posicion_actual with
  | none => some (e, m, "No hay habitacion en esta posicion", i)
  | some habitacion_actual =>
    let m₁ := { m with habitaciones := marcar_visitada m.habitaciones e.posicion_actual }
    match habitacion_actual.contenido with
    | none => some (e, m₁, "La habitacion esta vacia... solo hay polvo.", i)
    | some c =>
      match interactuar c e draws i fuel with
      | none => none
      | some (e', resultado, i') =>
        some (e', { m₁ with
          habitaciones := limpiar_contenido m₁.habitaciones e.posicion_actual },
          resultado, i')

/-- Every connection of every room points at a key of the rooms dict. -/
def conexiones_cerradas (habs : List (Pos × Habitacion)) : Prop :=
  ∀ ph ∈ habs, ∀ dv ∈ ph.2.conexiones, dv.2 ∈ habs.map Prod.fst


/-- The state of the map after `explorar_habitacion` resolves content at `p`:
the room is marked visited and its content is cleared. -/
def mapa_tras_explorar (m : Mapa) (p : Pos) : Mapa :=
  { m with habitaciones := limpiar_contenido (marcar_visitada m.habitaciones p) p }

/-! ## Concrete instances used to witness the theorems -/

/-- An all-zero draw record (every `random.choice` takes the first element). -/
def dibujos0 : DrawsContenido where
  esquinaIdx := 0
  jefeNombreIdx := 0
  jefeRecompensaIdx := 0
  monstruoHabIdx := fun _ => 0
  monstruoNombreIdx := fun _ => 0
  monstruoVidaDraw := fun _ => 0
  monstruoAtaqueDraw := fun _ => 0
  tesoroHabIdx := fun _ => 0
  tesoroObjetoIdx := fun _ => 0

/-- Draws whose corner pick is the second corner `(0, alto-1)`. -/
def dibujosEsquina1 : DrawsContenido :=
  { dibujos0 with esquinaIdx := 1 }

/-- An empty 2x2 map. -/
def mapaEj : Mapa := { ancho := 2, alto := 2 }

/-- An empty 3x1 map. -/
def mapaTri : Mapa := { ancho := 3, alto := 1 }

/-- The map produced by `generar_estructura mapaEj 2 [(0,0),(1,0)] 0`. -/
def resultadoGen2 : Mapa :=
  { ancho := 2, alto := 2,
    habitaciones := [
      ((0, 0), { id := 0, x := 0, y := 0, inicial := true, contenido := none,
                 conexiones := [("este", (1, 0))], visitada := false }),
      ((1, 0), { id := 1, x := 1, y := 0, inicial := false, contenido := none,
                 conexiones := [("oeste", (0, 0))], visitada := false })],
    habitacion_inicial := some (0, 0) }

/-- The state carried by the disconnection error of
`generar_estructura mapaTri 2 [(0,0),(2,0)] 0`. -/
def resultadoGenDesc : Mapa :=
  { ancho := 3, alto := 1,
    habitaciones := [
      ((0, 0), { id := 0, x := 0, y := 0, inicial := true, contenido := none,
                 conexiones := [], visitada := false }),
      ((2, 0), { id := 1, x := 2, y := 0, inicial := false, contenido := none,
                 conexiones := [], visitada := false })],
    habitacion_inicial := some (0, 0) }

/-- A generated 2x1 map whose start room sits on the corner `(0,0)`. -/
def mapaC2 : Mapa :=
  { ancho := 2, alto := 1,
    habitaciones := [
      ((0, 0), { id := 0, x := 0, y := 0, inicial := true, contenido := none,
                 conexiones := [("este", (1, 0))], visitada := false }),
      ((1, 0), { id := 1, x := 1, y := 0, inicial := false, contenido := none,
                 conexiones := [("oeste", (0, 0))], visitada := false })],
    habitacion_inicial := some (0, 0) }

/-- A generated 2x2 map with rooms on the corners `(0,0)` (start) and `(1,0)`,
and no room on the corners `(0,1)` and `(1,1)`. -/
def mapaC3 : Mapa :=
  { ancho := 2, alto := 2,
    habitaciones := [
      ((0, 0), { id := 0, x := 0, y := 0, inicial := true, contenido := none,
                 conexiones := [("este", (1, 0))], visitada := false }),
      ((1, 0), { id := 1, x := 1, y := 0, inicial := false, contenido := none,
                 conexiones := [("oeste", (0, 0))], visitada := false })],
    habitacion_inicial := some (0, 0) }

/-- A 1x1 map whose only room holds a monster with `vida=1, ataque=1`. -/
def mapaMonstruo : Mapa :=
  { ancho := 1, alto := 1,
    habitaciones := [
      ((0, 0), { id := 0, x := 0, y := 0, inicial := false,
                 contenido := some (ContenidoHabitacion.monstruo "Goblin" 1 1),
                 conexiones := [], visitada := false })] }

/-- A 1x1 map whose only room holds a treasure. -/
def mapaTesoro : Mapa :=
  { ancho := 1, alto := 1,
    habitaciones := [
      ((0, 0), { id := 0, x := 0, y := 0, inicial := false,
                 contenido := some (ContenidoHabitacion.tesoro
                   (Objeto.mk "Gema Preciosa" 50 "Una gema valiosa")),
                 conexiones := [], visitada := false })] }

/-- An explorer standing at the origin with default health and inventory. -/
def exploradorEj : Explorador := { posicion_actual := (0, 0) }

/-- A combat random source that always draws 0 (always below every threshold). -/
def dibujosCombate : Nat → ℚ := fun _ => 0

/-! ## Association-list lemmas -/

theorem buscar_actualizar {κ β : Type} [DecidableEq κ]
    (l : List (κ × β)) (p q : κ) (f : β → β) :
    buscar (actualizar l p f) q =
      if q = p then (buscar l q).map f else buscar l q := by
  induction l with
  | nil => by_cases h : q = p <;> simp [actualizar, buscar, h]
  | cons kv rest ih =>
    simp only [actualizar, List.map_cons] at ih ⊢
    by_cases h1 : kv.1 = p
    · by_cases h2 : q = p
      · subst h2; simp [buscar, h1]
      · have hne : ¬ p = q := fun hh => h2 hh.symm
        simp [buscar, h1, hne, ih, h2]
    · by_cases h2 : q = p
      · have hne : ¬ kv.1 = q := h2 ▸ h1
        subst h2
        simp [buscar, h1, hne, ih]
      · by_cases h3 : kv.1 = q
        · simp [buscar, h1, h3, h2]
        · simp [buscar, h1, h3, ih, h2]

theorem actualizar_claves {κ β : Type} [DecidableEq κ] (l : List (κ × β)) (p : κ) (f : β → β) :
    (actualizar l p f).map Prod.fst = l.map Prod.fst := by
  induction l with
  | nil => rfl
  | cons kv rest ih =>
    by_cases h : kv.1 = p <;> simp [actualizar, h] <;>
      simpa [actualizar] using ih

theorem actualizar_actualizar {κ β : Type} [DecidableEq κ]
    (l : List (κ × β)) (p : κ) (f g : β → β) :
    actualizar (actualizar l p f) p g = actualizar l p (fun b => g (f b)) := by
  induction l with
  | nil => rfl
  | cons kv rest ih =>
    by_cases h : kv.1 = p <;> simp [actualizar, h] at ih ⊢ <;> exact ih

theorem actualizar_congr {κ β : Type} [DecidableEq κ]
    (l : List (κ × β)) (p : κ) (f g : β → β) (h : ∀ b, f b = g b) :
    actualizar l p f = actualizar l p g := by
  unfold actualizar
  exact List.map_congr_left (fun kv _ => by by_cases hk : kv.1 = p <;> simp [hk, h])

theorem buscar_mem {κ β : Type} [DecidableEq κ] {l : List (κ × β)} {k : κ} {b : β}
    (h : buscar l k = some b) : (k, b) ∈ l := by
  induction l with
  | nil => simp [buscar] at h
  | cons kv rest ih =>
    rcases kv with ⟨k1, b1⟩
    by_cases hk : k1 = k
    · subst hk
      have h' : some b1 = some b := by simpa [buscar] using h
      cases h'
      exact List.mem_cons_self _ _
    · have h' : buscar rest k = some b := by simpa [buscar, hk] using h
      exact List.mem_cons_of_mem _ (ih h')

theorem buscar_isSome_of_mem {κ β : Type} [DecidableEq κ] {l : List (κ × β)} {kv : κ × β}
    (h : kv ∈ l) : (buscar l kv.1).isSome := by
  induction l with
  | nil => simp at h
  | cons a rest ih =>
    rcases List.mem_cons.mp h with h | h
    · subst h; simp [buscar]
    · by_cases hk : a.1 = kv.1 <;> simp [buscar, hk, ih h]

theorem buscar_eq_of_mem_nodup {κ β : Type} [DecidableEq κ] {l : List (κ × β)}
    (hnd : (l.map Prod.fst).Nodup) {k : κ} {b : β} (h : (k, b) ∈ l) :
    buscar l k = some b := by
  induction l with
  | nil => simp at h
  | cons kv rest ih =>
    rcases List.mem_cons.mp h with h | h
    · subst h; simp [buscar]
    · have hk : kv.1 ≠ k := by
        intro hkk
        have : k ∈ rest.map Prod.fst := List.mem_map.mpr ⟨(k, b), h, rfl⟩
        simp only [List.map_cons, List.nodup_cons] at hnd
        exact hnd.1 (hkk ▸ this)
      simp only [List.map_cons, List.nodup_cons] at hnd
      simp [buscar, hk, ih hnd.2 h]

/-! ## Facts about the generated structure -/

theorem construir_base_claves (pi : Pos) :
    ∀ (sample : List Pos) (i : Nat), (construir_base pi sample i).map Prod.fst = sample := by
  intro sample
  induction sample with
  | nil => intro i; rfl
  | cons p rest ih => intro i; simp [construir_base, ih]

theorem construir_claves (sample : List Pos) (pi : Pos) :
    (construir_habitaciones sample pi).map Prod.fst = sample := by
  unfold construir_habitaciones
  rw [List.map_map]
  have hf : (Prod.fst ∘ fun ph : Pos × Habitacion =>
      (ph.1, { ph.2 with conexiones := conectar_en sample ph.1 })) = Prod.fst := rfl
  rw [hf, construir_base_claves]

theorem construir_length (sample : List Pos) (pi : Pos) :
    (construir_habitaciones sample pi).length = sample.length := by
  have h := congrArg List.length (construir_claves sample pi)
  simpa using h

theorem construir_conexiones (sample : List Pos) (pi : Pos) :
    ∀ ph ∈ construir_habitaciones sample pi, ph.2.conexiones = conectar_en sample ph.1 := by
  intro ph hph
  unfold construir_habitaciones at hph
  obtain ⟨q, -, rfl⟩ := List.mem_map.mp hph
  rfl

theorem conectar_en_cerrado (claves : List Pos) (p : Pos) :
    ∀ dv ∈ conectar_en claves p, dv.2 ∈ claves := by
  intro dv hdv
  obtain ⟨a, -, ha⟩ := List.mem_filterMap.mp hdv
  dsimp only at ha
  split at ha
  · cases ha; assumption
  · cases ha

theorem construir_cerradas (sample : List Pos) (pi : Pos) :
    conexiones_cerradas (construir_habitaciones sample pi) := by
  intro ph hph dv hdv
  rw [construir_claves]
  exact conectar_en_cerrado sample ph.1 dv
    (by rwa [construir_conexiones sample pi ph hph] at hdv)

theorem bfs_loop_nodup (habs : List (Pos × Habitacion)) :
    ∀ (fuel : Nat) (cola vis : List Pos), vis.Nodup → (bfs_loop habs fuel cola vis).Nodup := by
  intro fuel
  induction fuel with
  | zero => intro cola vis h; simpa [bfs_loop] using h
  | succ f ih =>
    intro cola vis h
    match cola with
    | [] => simpa [bfs_loop] using h
    | p :: cola' =>
      by_cases hp : p ∈ vis
      · simpa [bfs_loop, hp] using ih cola' vis h
      · have h' : (p :: vis).Nodup := List.nodup_cons.mpr ⟨hp, h⟩
        simpa [bfs_loop, hp] using ih _ _ h'

theorem bfs_loop_subset (habs : List (Pos × Habitacion)) (hcc : conexiones_cerradas habs) :
    ∀ (fuel : Nat) (cola vis : List Pos),
      (∀ p ∈ cola, p ∈ habs.map Prod.fst) → (∀ p ∈ vis, p ∈ habs.map Prod.fst) →
      ∀ q ∈ bfs_loop habs fuel cola vis, q ∈ habs.map Prod.fst := by
  intro fuel
  induction fuel with
  | zero => intro cola vis _ hvis q hq; exact hvis q (by simpa [bfs_loop] using hq)
  | succ f ih =>
    intro cola vis hcola hvis q hq
    match cola with
    | [] => exact hvis q (by simpa [bfs_loop] using hq)
    | p :: cola' =>
      by_cases hp : p ∈ vis
      · exact ih cola' vis (fun r hr => hcola r (List.mem_cons_of_mem _ hr)) hvis q
          (by simpa [bfs_loop, hp] using hq)
      · have hpk : p ∈ habs.map Prod.fst := hcola p (List.mem_cons_self _ _)
        have hvis' : ∀ r ∈ p :: vis, r ∈ habs.map Prod.fst := by
          intro r hr
          rcases List.mem_cons.mp hr with rfl | hr
          · exact hpk
          · exact hvis r hr
        have hcola' : ∀ r ∈ cola' ++
            ((match buscar habs p with
              | some h => h.conexiones.map Prod.snd
              | none => []).filter (fun v => decide (v ∉ p :: vis))),
            r ∈ habs.map Prod.fst := by
          intro r hr
          rcases List.mem_append.mp hr with hr | hr
          · exact hcola r (List.mem_cons_of_mem _ hr)
          · have hr' := List.mem_of_mem_filter hr
            match hb : buscar habs p with
            | none => rw [hb] at hr'; cases hr'
            | some hroom =>
              rw [hb] at hr'
              obtain ⟨dv, hdv, rfl⟩ := List.mem_map.mp hr'
              exact hcc (p, hroom) (buscar_mem hb) dv hdv
        have := ih _ _ hcola' hvis' q (by simpa [bfs_loop, hp] using hq)
        exact this

theorem pos_inicial_mem (m : Mapa) (sample : List Pos) (k : Nat) (p : Pos)
    (h : pos_inicial_de m sample k = some p) : p ∈ sample := by
  unfold pos_inicial_de at h
  match hb : sample.filter (es_borde m) with
  | [] =>
    rw [hb] at h
    exact List.mem_of_mem_head? h
  | b :: bs =>
    rw [hb] at h
    have hp : p ∈ b :: bs := List.get?_mem h
    exact List.mem_of_mem_filter (hb ▸ hp)

/-! ## Claims about `generar_estructura` -/

/-- C5: for every `n` with `n < 1` or `n > ancho*alto`, `generar_estructura n`
fails with an invalid-configuration error and performs no mutation: the error
carries the map exactly as it was before the call. -/
theorem claim_C5_configuracion_invalida (m : Mapa) (n : Int) (sample : List Pos) (k : Nat)
    (h : n < 1 ∨ n > m.ancho * m.alto) :
    ∃ msg, generar_estructura m n sample k =
      Except.error (GenError.invalidConfiguration msg, m) := by
  unfold generar_estructura
  by_cases h1 : n > m.ancho * m.alto
  · exact ⟨_, by rw [if_pos h1]⟩
  · have h2 : n < 1 := h.resolve_right h1
    exact ⟨_, by rw [if_neg h1, if_pos h2]⟩

theorem claim_C5_witness :
    ((0 : Int) < 1 ∨ (0 : Int) > mapaEj.ancho * mapaEj.alto) ∧
    ∃ msg, generar_estructura mapaEj 0 [] 0 =
      Except.error (GenError.invalidConfiguration msg, mapaEj) :=
  ⟨Or.inl (by decide), claim_C5_configuracion_invalida mapaEj 0 [] 0 (Or.inl (by decide))⟩

theorem generar_ok_inv (m : Mapa) (n : Int) (sample : List Pos) (k : Nat) (m' : Mapa)
    (h : generar_estructura m n sample k = Except.ok m') :
    ∃ pos_inicial, pos_inicial_de m sample k = some pos_inicial ∧
      pos_inicial ∈ sample ∧ m' = mapa_construido m sample pos_inicial ∧
      ((recorrido m').length : Int) = n := by
  unfold generar_estructura at h
  split at h
  · exact Except.noConfusion h
  · split at h
    · exact Except.noConfusion h
    · split at h
      · exact Except.noConfusion h
      · rename_i pos_inicial hpi
        split at h
        · exact Except.noConfusion h
        · rename_i hini
          split at h
          · exact Except.noConfusion h
          · rename_i hrec
            injection h with h'
            subst h'
            refine ⟨pos_inicial, hpi, ?_, rfl, not_not.mp hrec⟩
            by_cases hmem : pos_inicial ∈ sample
            · exact hmem
            · exact absurd (by simp [mapa_construido, hmem]) hini

theorem generar_desconectado_inv (m : Mapa) (n : Int) (sample : List Pos) (k : Nat)
    (v : Nat) (m' : Mapa)
    (h : generar_estructura m n sample k = Except.error (GenError.disconnected v, m')) :
    ∃ pos_inicial, pos_inicial_de m sample k = some pos_inicial ∧
      pos_inicial ∈ sample ∧ m' = mapa_construido m sample pos_inicial ∧
      ((recorrido m').length : Int) ≠ n := by
  unfold generar_estructura at h
  split at h
  · injection h with h'
    exact absurd (congrArg Prod.fst h') (by simp)
  · split at h
    · injection h with h'
      exact absurd (congrArg Prod.fst h') (by simp)
    · split at h
      · injection h with h'
        exact absurd (congrArg Prod.fst h') (by simp)
      · rename_i pos_inicial hpi
        split at h
        · injection h with h'
          exact absurd (congrArg Prod.fst h') (by simp)
        · rename_i hini
          split at h
          · rename_i hrec
            injection h with h'
            have hm : m' = mapa_construido m sample pos_inicial :=
              (congrArg Prod.snd h').symm
            subst hm
            refine ⟨pos_inicial, hpi, ?_, rfl, hrec⟩
            by_cases hmem : pos_inicial ∈ sample
            · exact hmem
            · exact absurd (by simp [mapa_construido, hmem]) hini
          · exact Except.noConfusion h

/-- C10: when `generar_estructura` raises the disconnected-dungeon error, the
map is left in the mutated state: the rooms dict holds exactly the freshly
sampled rooms with their computed connections, the start reference is set,
and the reachability count indeed differs from `n` — nothing is restored. -/
theorem claim_C10_estado_tras_desconexion (m : Mapa) (n : Int) (sample : List Pos)
    (k : Nat) (v : Nat) (m' : Mapa) (hlen : (sample.length : Int) = n)
    (h : generar_estructura m n sample k = Except.error (GenError.disconnected v, m')) :
    m'.habitaciones.map Prod.fst = sample ∧
    (m'.habitaciones.length : Int) = n ∧
    m'.habitacion_inicial.isSome ∧
    (∀ ph ∈ m'.habitaciones, ph.2.conexiones = conectar_en sample ph.1) ∧
    ((recorrido m').length : Int) ≠ n := by
  obtain ⟨pos_inicial, -, hmem, rfl, hrec⟩ :=
    generar_desconectado_inv m n sample k v m' h
  refine ⟨?_, ?_, ?_, ?_, hrec⟩
  · exact construir_claves sample pos_inicial
  · rw [show (mapa_construido m sample pos_inicial).habitaciones
        = construir_habitaciones sample pos_inicial from rfl, construir_length]
    exact hlen
  · simp [mapa_construido, hmem]
  · exact construir_conexiones sample pos_inicial

theorem claim_C10_witness :
    ((([((0 : Int), (0 : Int)), ((2 : Int), (0 : Int))] : List Pos).length : Int) = 2 ∧
      generar_estructura mapaTri 2 [(0, 0), (2, 0)] 0 =
        Except.error (GenError.disconnected 1, resultadoGenDesc)) ∧
    (resultadoGenDesc.habitaciones.map Prod.fst = [(0, 0), (2, 0)] ∧
      (resultadoGenDesc.habitaciones.length : Int) = 2 ∧
      resultadoGenDesc.habitacion_inicial.isSome ∧
      (∀ ph ∈ resultadoGenDesc.habitaciones,
        ph.2.conexiones = conectar_en [(0, 0), (2, 0)] ph.1) ∧
      ((recorrido resultadoGenDesc).length : Int) ≠ 2) :=
  ⟨⟨by decide, by rfl⟩,
    claim_C10_estado_tras_desconexion mapaTri 2 [(0, 0), (2, 0)] 0 1 resultadoGenDesc
      (by decide) (by rfl)⟩

/-- C1: whenever `generar_estructura n` returns without raising (the sample
being what `random.sample` guarantees: `n` distinct cells), the rooms dict has
exactly `n` entries, the start reference is set, and the breadth-first
traversal from the start room visits exactly `n` rooms — every room of the map
is reached. -/
theorem claim_C1_conectividad (m : Mapa) (n : Int) (sample : List Pos) (k : Nat) (m' : Mapa)
    (hlen : (sample.length : Int) = n) (hnd : sample.Nodup)
    (h : generar_estructura m n sample k = Except.ok m') :
    (m'.habitaciones.length : Int) = n ∧
    m'.habitacion_inicial.isSome ∧
    ((recorrido m').length : Int) = n ∧
    ∀ p ∈ m'.habitaciones.map Prod.fst, p ∈ recorrido m' := by
  obtain ⟨pos_inicial, -, hmem, rfl, hrec⟩ := generar_ok_inv m n sample k m' h
  have hkeys : (mapa_construido m sample pos_inicial).habitaciones.map Prod.fst = sample :=
    construir_claves sample pos_inicial
  have hhi : (mapa_construido m sample pos_inicial).habitacion_inicial = some pos_inicial := by
    simp [mapa_construido, hmem]
  refine ⟨?_, ?_, hrec, ?_⟩
  · rw [show (mapa_construido m sample pos_inicial).habitaciones
        = construir_habitaciones sample pos_inicial from rfl, construir_length]
    exact hlen
  · simp [hhi]
  · have hnodupV : (recorrido (mapa_construido m sample pos_inicial)).Nodup := by
      unfold recorrido
      rw [hhi]
      exact bfs_loop_nodup _ _ _ _ List.nodup_nil
    have hsubV : ∀ q ∈ recorrido (mapa_construido m sample pos_inicial),
        q ∈ (mapa_construido m sample pos_inicial).habitaciones.map Prod.fst := by
      unfold recorrido
      rw [hhi]
      refine bfs_loop_subset _ ?_ _ _ _ ?_ ?_
      · exact construir_cerradas sample pos_inicial
      · intro r hr
        rcases List.mem_cons.mp hr with rfl | hr
        · rw [hkeys]; exact hmem
        · cases hr
      · intro r hr
        cases hr
    have hlenV : (recorrido (mapa_construido m sample pos_inicial)).length
        = sample.length := by
      have h2 := hrec
      rw [← hlen] at h2
      exact_mod_cast h2
    have hndk : ((mapa_construido m sample pos_inicial).habitaciones.map Prod.fst).Nodup := by
      rw [hkeys]; exact hnd
    intro p hp
    have hVsubK : (recorrido (mapa_construido m sample pos_inicial)).toFinset ⊆
        ((mapa_construido m sample pos_inicial).habitaciones.map Prod.fst).toFinset := by
      intro q hq
      rw [List.mem_toFinset] at hq ⊢
      exact hsubV q hq
    have hcards : ((mapa_construido m sample pos_inicial).habitaciones.map
          Prod.fst).toFinset.card ≤
        (recorrido (mapa_construido m sample pos_inicial)).toFinset.card := by
      rw [List.toFinset_card_of_nodup hnodupV, List.toFinset_card_of_nodup hndk, hkeys, hlenV]
    have hEq := Finset.eq_of_subset_of_card_le hVsubK hcards
    have hpV : p ∈ ((mapa_construido m sample pos_inicial).habitaciones.map
        Prod.fst).toFinset := List.mem_toFinset.mpr hp
    rw [← hEq] at hpV
    exact List.mem_toFinset.mp hpV

theorem claim_C1_witness :
    ((([((0 : Int), (0 : Int)), ((1 : Int), (0 : Int))] : List Pos).length : Int) = 2 ∧
      ([((0 : Int), (0 : Int)), ((1 : Int), (0 : Int))] : List Pos).Nodup ∧
      generar_estructura mapaEj 2 [(0, 0), (1, 0)] 0 = Except.ok resultadoGen2) ∧
    ((resultadoGen2.habitaciones.length : Int) = 2 ∧
      resultadoGen2.habitacion_inicial.isSome ∧
      ((recorrido resultadoGen2).length : Int) = 2 ∧
      ∀ p ∈ resultadoGen2.habitaciones.map Prod.fst, p ∈ recorrido resultadoGen2) :=
  ⟨⟨by decide, by decide, by rfl⟩,
    claim_C1_conectividad mapaEj 2 [(0, 0), (1, 0)] 0 resultadoGen2
      (by decide) (by decide) (by rfl)⟩

/-- C9: for every successful run, if the sample contains a border cell the
chosen start room is a border cell (drawn from the border subset), and if it
contains no border cell the start room is the first sampled cell. -/
theorem claim_C9_preferencia_borde (m : Mapa) (n : Int) (sample : List Pos) (k : Nat)
    (m' : Mapa) (h : generar_estructura m n sample k = Except.ok m') :
    (sample.filter (es_borde m) ≠ [] →
      ∃ p, m'.habitacion_inicial = some p ∧ es_borde m p = true) ∧
    (sample.filter (es_borde m) = [] → m'.habitacion_inicial = sample.head?) := by
  obtain ⟨pos_inicial, hpi, hmem, rfl, -⟩ := generar_ok_inv m n sample k m' h
  have hhi : (mapa_construido m sample pos_inicial).habitacion_inicial = some pos_inicial := by
    simp [mapa_construido, hmem]
  unfold pos_inicial_de at hpi
  constructor
  · intro hne
    match hb : sample.filter (es_borde m) with
    | [] => exact absurd hb hne
    | b :: bs =>
      rw [hb] at hpi
      have hmemf : pos_inicial ∈ b :: bs := List.get?_mem hpi
      have : pos_inicial ∈ sample.filter (es_borde m) := hb ▸ hmemf
      exact ⟨pos_inicial, hhi, (List.mem_filter.mp this).2⟩
  · intro hb
    rw [hb] at hpi
    rw [hhi]
    exact hpi.symm

theorem claim_C9_witness :
    (generar_estructura mapaEj 2 [(0, 0), (1, 0)] 0 = Except.ok resultadoGen2 ∧
      ([((0 : Int), (0 : Int)), ((1 : Int), (0 : Int))] : List Pos).filter
        (es_borde mapaEj) ≠ []) ∧
    ∃ p, resultadoGen2.habitacion_inicial = some p ∧ es_borde mapaEj p = true :=
  ⟨⟨by rfl, by decide⟩,
    (claim_C9_preferencia_borde mapaEj 2 [(0, 0), (1, 0)] 0 resultadoGen2 (by rfl)).1
      (by decide)⟩

/-! ## Facts about the content-placement loops -/

theorem monstruo_loop_frame (d : DrawsContenido) :
    ∀ (count : Nat) (habs : List (Pos × Habitacion)) (restantes : List Pos)
      (iter : Nat) (q : Pos), q ∉ restantes →
      buscar (monstruo_loop d count habs restantes iter).1 q = buscar habs q := by
  intro count
  induction count with
  | zero => intro habs restantes iter q _; rfl
  | succ c ih =>
    intro habs restantes iter q hq
    match restantes with
    | [] => rfl
    | r :: rs =>
      simp only [monstruo_loop]
      match hget : (r :: rs).get? (d.monstruoHabIdx iter % (r :: rs).length) with
      | none => rfl
      | some p =>
        have hp : p ∈ r :: rs := List.get?_mem hget
        have hqp : q ≠ p := fun hqp => hq (hqp ▸ hp)
        have hq' : q ∉ (r :: rs).eraseIdx (d.monstruoHabIdx iter % (r :: rs).length) :=
          fun hmem => hq (List.eraseIdx_subset _ _ hmem)
        rw [ih _ _ _ q hq']
        unfold fijar_contenido
        rw [buscar_actualizar, if_neg hqp]

theorem tesoro_loop_frame (d : DrawsContenido) :
    ∀ (count : Nat) (habs : List (Pos × Habitacion)) (restantes : List Pos)
      (iter : Nat) (q : Pos), q ∉ restantes →
      buscar (tesoro_loop d count habs restantes iter).1 q = buscar habs q := by
  intro count
  induction count with
  | zero => intro habs restantes iter q _; rfl
  | succ c ih =>
    intro habs restantes iter q hq
    match restantes with
    | [] => rfl
    | r :: rs =>
      simp only [tesoro_loop]
      match hget : (r :: rs).get? (d.tesoroHabIdx iter % (r :: rs).length) with
      | none => rfl
      | some p =>
        have hp : p ∈ r :: rs := List.get?_mem hget
        have hqp : q ≠ p := fun hqp => hq (hqp ▸ hp)
        have hq' : q ∉ (r :: rs).eraseIdx (d.tesoroHabIdx iter % (r :: rs).length) :=
          fun hmem => hq (List.eraseIdx_subset _ _ hmem)
        rw [ih _ _ _ q hq']
        unfold fijar_contenido
        rw [buscar_actualizar, if_neg hqp]

theorem monstruo_loop_restantes (d : DrawsContenido) :
    ∀ (count : Nat) (habs : List (Pos × Habitacion)) (restantes : List Pos)
      (iter : Nat), (monstruo_loop d count habs restantes iter).2 ⊆ restantes := by
  intro count
  induction count with
  | zero => intro habs restantes iter q hq; exact hq
  | succ c ih =>
    intro habs restantes iter q hq
    match restantes with
    | [] => exact hq
    | r :: rs =>
      simp only [monstruo_loop] at hq
      match hget : (r :: rs).get? (d.monstruoHabIdx iter % (r :: rs).length) with
      | none => rw [hget] at hq; exact hq
      | some p =>
        rw [hget] at hq
        exact List.eraseIdx_subset _ _ (ih _ _ _ hq)

theorem monstruo_loop_clasifica (d : DrawsContenido) :
    ∀ (count : Nat) (habs : List (Pos × Habitacion)) (restantes : List Pos)
      (iter : Nat) (q : Pos),
      buscar (monstruo_loop d count habs restantes iter).1 q = buscar habs q ∨
      ∃ h mc, buscar habs q = some h ∧
        buscar (monstruo_loop d count habs restantes iter).1 q =
          some { h with contenido := some mc } ∧ es_monstruo (some mc) = true := by
  intro count
  induction count with
  | zero => intro habs restantes iter q; exact Or.inl rfl
  | succ c ih =>
    intro habs restantes iter q
    match restantes with
    | [] => exact Or.inl rfl
    | r :: rs =>
      simp only [monstruo_loop]
      match hget : (r :: rs).get? (d.monstruoHabIdx iter % (r :: rs).length) with
      | none => exact Or.inl rfl
      | some p =>
        have hstep := buscar_actualizar habs p q
          (fun h => { h with contenido := some (crear_monstruo (d.monstruoNombreIdx iter)
            (d.monstruoVidaDraw iter) (d.monstruoAtaqueDraw iter)) })
        rcases ih (fijar_contenido habs p (some (crear_monstruo (d.monstruoNombreIdx iter)
            (d.monstruoVidaDraw iter) (d.monstruoAtaqueDraw iter))))
            ((r :: rs).eraseIdx (d.monstruoHabIdx iter % (r :: rs).length)) (iter + 1) q with
          hl | ⟨h, mc, hh, hloop, hmc⟩
        · rw [hl]
          unfold fijar_contenido
          rw [hstep]
          by_cases hqp : q = p
          · rw [if_pos hqp]
            match hbq : buscar habs q with
            | none => exact Or.inl rfl
            | some h0 =>
              exact Or.inr ⟨h0, crear_monstruo (d.monstruoNombreIdx iter)
                (d.monstruoVidaDraw iter) (d.monstruoAtaqueDraw iter), rfl, rfl, rfl⟩
          · rw [if_neg hqp]
            exact Or.inl rfl
        · unfold fijar_contenido at hh
          rw [hstep] at hh
          by_cases hqp : q = p
          · rw [if_pos hqp] at hh
            match hbq : buscar habs q with
            | none => rw [hbq] at hh; cases hh
            | some h0 =>
              rw [hbq] at hh
              have hh' : h = { h0 with contenido := some (crear_monstruo
                  (d.monstruoNombreIdx iter) (d.monstruoVidaDraw iter)
                  (d.monstruoAtaqueDraw iter)) } := by
                injection hh with hh''
                exact hh''.symm
              subst hh'
              exact Or.inr ⟨h0, mc, rfl, hloop, hmc⟩
          · rw [if_neg hqp] at hh
            exact Or.inr ⟨h, mc, hh, hloop, hmc⟩

theorem tesoro_loop_clasifica (d : DrawsContenido) :
    ∀ (count : Nat) (habs : List (Pos × Habitacion)) (restantes : List Pos)
      (iter : Nat) (q : Pos),
      buscar (tesoro_loop d count habs restantes iter).1 q = buscar habs q ∨
      ∃ h mc, buscar habs q = some h ∧
        buscar (tesoro_loop d count habs restantes iter).1 q =
          some { h with contenido := some mc } ∧ es_tesoro (some mc) = true := by
  intro count
  induction count with
  | zero => intro habs restantes iter q; exact Or.inl rfl
  | succ c ih =>
    intro habs restantes iter q
    match restantes with
    | [] => exact Or.inl rfl
    | r :: rs =>
      simp only [tesoro_loop]
      match hget : (r :: rs).get? (d.tesoroHabIdx iter % (r :: rs).length) with
      | none => exact Or.inl rfl
      | some p =>
        have hstep := buscar_actualizar habs p q
          (fun h => { h with contenido := some (crear_tesoro (d.tesoroObjetoIdx iter)) })
        rcases ih (fijar_contenido habs p (some (crear_tesoro (d.tesoroObjetoIdx iter))))
            ((r :: rs).eraseIdx (d.tesoroHabIdx iter % (r :: rs).length)) (iter + 1) q with
          hl | ⟨h, mc, hh, hloop, hmc⟩
        · rw [hl]
          unfold fijar_contenido
          rw [hstep]
          by_cases hqp : q = p
          · rw [if_pos hqp]
            match hbq : buscar habs q with
            | none => exact Or.inl rfl
            | some h0 =>
              exact Or.inr ⟨h0, crear_tesoro (d.tesoroObjetoIdx iter), rfl, rfl, rfl⟩
          · rw [if_neg hqp]
            exact Or.inl rfl
        · unfold fijar_contenido at hh
          rw [hstep] at hh
          by_cases hqp : q = p
          · rw [if_pos hqp] at hh
            match hbq : buscar habs q with
            | none => rw [hbq] at hh; cases hh
            | some h0 =>
              rw [hbq] at hh
              have hh' : h = { h0 with contenido := some (crear_tesoro
                  (d.tesoroObjetoIdx iter)) } := by
                injection hh with hh''
                exact hh''.symm
              subst hh'
              exact Or.inr ⟨h0, mc, rfl, hloop, hmc⟩
          · rw [if_neg hqp] at hh
            exact Or.inr ⟨h, mc, hh, hloop, hmc⟩

theorem es_jefe_falso_de_tesoro {mc : ContenidoHabitacion}
    (h : es_tesoro (some mc) = true) : es_jefe (some mc) = false := by
  cases mc <;> simp [es_tesoro, es_jefe] at h ⊢

theorem es_jefe_falso_de_monstruo {mc : ContenidoHabitacion}
    (h : es_monstruo (some mc) = true) : es_jefe (some mc) = false := by
  cases mc <;> simp [es_monstruo, es_jefe] at h ⊢

/-! ## Claims about `colocar_contenido` -/

/-- C2 (counterexample): on a generated 2x1 map whose start room sits on the
corner `(0,0)`, with the corner draw selecting `(0,0)`, `colocar_contenido`
stores the boss in the start room — the start room does receive content. -/
theorem claim_C2_counterexample :
    (buscar mapaC2.habitaciones (0, 0)).map (fun h => h.inicial) = some true ∧
    contenido_en (colocar_contenido mapaC2 dibujos0).habitaciones (0, 0) ≠ some none := by
  constructor
  · rfl
  · decide

/-- C2 (amended): `colocar_contenido` never stores a treasure or a monster in
the start room; only the boss step, which does not consult the start flag, can
give the start room content (when the drawn corner is the start room). -/
theorem claim_C2_contenido_inicio (m : Mapa) (d : DrawsContenido) (ps : Pos)
    (hs : Habitacion) (hnd : (m.habitaciones.map Prod.fst).Nodup)
    (hini : buscar m.habitaciones ps = some hs)
    (hsi : hs.inicial = true) (hc : hs.contenido = none) :
    Option.all (fun c' => !es_tesoro c' && !es_monstruo c')
      (contenido_en (colocar_contenido m d).habitaciones ps) = true := by
  unfold colocar_contenido
  by_cases hdisp : habitaciones_disponibles m = []
  · rw [if_pos hdisp]
    unfold contenido_en
    rw [hini]
    simp [hc, es_tesoro, es_monstruo]
  · rw [if_neg hdisp]
    have hps_nd : ps ∉ habitaciones_disponibles m := by
      intro hmem
      unfold habitaciones_disponibles at hmem
      obtain ⟨ph, hphf, hph1⟩ := List.mem_map.mp hmem
      have hphm : ph ∈ m.habitaciones := List.mem_of_mem_filter hphf
      have hcond := List.of_mem_filter hphf
      have hbu : buscar m.habitaciones ph.1 = some ph.2 :=
        buscar_eq_of_mem_nodup hnd (by rw [Prod.mk.eta]; exact hphm)
      rw [hph1, hini] at hbu
      injection hbu with hbu'
      rw [← hbu', hsi] at hcond
      simp at hcond
    have hps_nr : ps ∉ restantes_tras_jefe m d := by
      intro hmem
      unfold restantes_tras_jefe at hmem
      exact hps_nd (List.mem_of_mem_filter hmem)
    have hps_nr2 : ps ∉ (paso_monstruos m d).2 :=
      fun hmem => hps_nr (monstruo_loop_restantes d _ _ _ _ hmem)
    have h1 : buscar (paso_tesoros m d).1 ps = buscar (paso_monstruos m d).1 ps := by
      unfold paso_tesoros
      exact tesoro_loop_frame d _ _ _ _ ps hps_nr2
    have h2 : buscar (paso_monstruos m d).1 ps = buscar (habs_tras_jefe m d) ps := by
      unfold paso_monstruos
      exact monstruo_loop_frame d _ _ _ _ ps hps_nr
    unfold contenido_en
    rw [show ({ m with habitaciones := (paso_tesoros m d).1 } : Mapa).habitaciones
      = (paso_tesoros m d).1 from rfl]
    rw [h1, h2]
    unfold habs_tras_jefe
    by_cases hj : (buscar m.habitaciones (elegir_esquina m d)).isSome
    · rw [if_pos hj]
      unfold fijar_contenido
      rw [buscar_actualizar]
      by_cases hqc : ps = elegir_esquina m d
      · rw [if_pos hqc, hini]
        simp [es_tesoro, es_monstruo, crear_jefe]
      · rw [if_neg hqc, hini]
        simp [hc, es_tesoro, es_monstruo]
    · rw [if_neg hj, hini]
      simp [hc, es_tesoro, es_monstruo]

theorem claim_C2_witness :
    ((mapaC2.habitaciones.map Prod.fst).Nodup ∧
      buscar mapaC2.habitaciones (0, 0) =
        some (Habitacion.mk 0 0 0 true none [("este", (1, 0))] false)) ∧
    Option.all (fun c' => !es_tesoro c' && !es_monstruo c')
      (contenido_en (colocar_contenido mapaC2 dibujos0).habitaciones (0, 0)) = true :=
  ⟨⟨by decide, by rfl⟩,
    claim_C2_contenido_inicio mapaC2 dibujos0 (0, 0)
      (Habitacion.mk 0 0 0 true none [("este", (1, 0))] false)
      (by decide) (by rfl) rfl rfl⟩

/-- C3 (counterexample): on a generated 2x2 map with rooms on the corners
`(0,0)` and `(1,0)`, the corner draw can select the empty corner `(0,1)`; then
no boss is placed anywhere, although corners holding rooms exist. -/
theorem claim_C3_counterexample :
    (buscar mapaC3.habitaciones (0, 0)).isSome = true ∧
    elegir_esquina mapaC3 dibujosEsquina1 = (0, 1) ∧
    (colocar_contenido mapaC3 dibujosEsquina1).habitaciones.all
      (fun ph => !es_jefe ph.2.contenido) = true := by
  refine ⟨rfl, rfl, ?_⟩
  decide

/-- C3 (amended): `colocar_contenido` draws one corner uniformly among all
four grid corners, empty or not; a boss (vida 5, ataque 2) is placed exactly
when the drawn corner holds a room, and exactly there — when the drawn corner
is empty no boss is placed at all, even if another corner holds a room. -/
theorem claim_C3_colocacion_jefe (m : Mapa) (d : DrawsContenido)
    (hall : ∀ ph ∈ m.habitaciones, ph.2.contenido = none)
    (hdisp : habitaciones_disponibles m ≠ []) :
    ((buscar m.habitaciones (elegir_esquina m d)).isSome = true →
      contenido_en (colocar_contenido m d).habitaciones (elegir_esquina m d) =
        some (some (crear_jefe d.jefeNombreIdx d.jefeRecompensaIdx))) ∧
    (∀ q h', buscar (colocar_contenido m d).habitaciones q = some h' →
      es_jefe h'.contenido = true →
      q = elegir_esquina m d ∧
        (buscar m.habitaciones (elegir_esquina m d)).isSome = true) := by
  have hcol : colocar_contenido m d = { m with habitaciones := (paso_tesoros m d).1 } := by
    unfold colocar_contenido
    rw [if_neg hdisp]
  constructor
  · intro hj
    obtain ⟨hc0, hhc0⟩ := Option.isSome_iff_exists.mp hj
    have hb1 : buscar (habs_tras_jefe m d) (elegir_esquina m d) =
        some { hc0 with contenido := some (crear_jefe d.jefeNombreIdx
          d.jefeRecompensaIdx) } := by
      unfold habs_tras_jefe
      rw [if_pos hj]
      unfold fijar_contenido
      rw [buscar_actualizar, if_pos rfl, hhc0]
      rfl
    have hcnr : elegir_esquina m d ∉ restantes_tras_jefe m d := by
      intro hmem
      unfold restantes_tras_jefe at hmem
      have hcond := List.of_mem_filter hmem
      rw [hb1] at hcond
      simp at hcond
    have hcnr2 : elegir_esquina m d ∉ (paso_monstruos m d).2 :=
      fun hmem => hcnr (monstruo_loop_restantes d _ _ _ _ hmem)
    have h1 : buscar (paso_tesoros m d).1 (elegir_esquina m d) =
        buscar (paso_monstruos m d).1 (elegir_esquina m d) := by
      unfold paso_tesoros
      exact tesoro_loop_frame d _ _ _ _ _ hcnr2
    have h2 : buscar (paso_monstruos m d).1 (elegir_esquina m d) =
        buscar (habs_tras_jefe m d) (elegir_esquina m d) := by
      unfold paso_monstruos
      exact monstruo_loop_frame d _ _ _ _ _ hcnr
    rw [hcol]
    unfold contenido_en
    rw [show ({ m with habitaciones := (paso_tesoros m d).1 } : Mapa).habitaciones
      = (paso_tesoros m d).1 from rfl]
    rw [h1, h2, hb1]
    rfl
  · intro q h' hq hjefe
    rw [hcol] at hq
    rw [show ({ m with habitaciones := (paso_tesoros m d).1 } : Mapa).habitaciones
      = (paso_tesoros m d).1 from rfl] at hq
    unfold paso_tesoros at hq
    rcases tesoro_loop_clasifica d
        (min (max 1 ((paso_monstruos m d).2.length / 5)) (paso_monstruos m d).2.length)
        (paso_monstruos m d).1 (paso_monstruos m d).2 0 q with ht | ⟨h2, mc, hh2, hloop2, hmc2⟩
    · rw [ht] at hq
      unfold paso_monstruos at hq
      rcases monstruo_loop_clasifica d
          (min (max 1 ((restantes_tras_jefe m d).length / 4)) (restantes_tras_jefe m d).length)
          (habs_tras_jefe m d) (restantes_tras_jefe m d) 0 q with hm | ⟨h3, mc3, hh3, hloop3, hmc3⟩
      · rw [hm] at hq
        unfold habs_tras_jefe at hq
        by_cases hj : (buscar m.habitaciones (elegir_esquina m d)).isSome
        · rw [if_pos hj] at hq
          unfold fijar_contenido at hq
          rw [buscar_actualizar] at hq
          by_cases hqc : q = elegir_esquina m d
          · exact ⟨hqc, hj⟩
          · rw [if_neg hqc] at hq
            have hnone := hall (q, h') (buscar_mem hq)
            rw [show (q, h').2.contenido = h'.contenido from rfl] at hnone
            rw [hnone] at hjefe
            simp [es_jefe] at hjefe
        · rw [if_neg hj] at hq
          have hnone := hall (q, h') (buscar_mem hq)
          rw [show (q, h').2.contenido = h'.contenido from rfl] at hnone
          rw [hnone] at hjefe
          simp [es_jefe] at hjefe
      · rw [hloop3] at hq
        injection hq with hq'
        rw [← hq'] at hjefe
        rw [show ({ h3 with contenido := some mc3 } : Habitacion).contenido
          = some mc3 from rfl] at hjefe
        rw [es_jefe_falso_de_monstruo hmc3] at hjefe
        cases hjefe
    · rw [hloop2] at hq
      injection hq with hq'
      rw [← hq'] at hjefe
      rw [show ({ h2 with contenido := some mc } : Habitacion).contenido
        = some mc from rfl] at hjefe
      rw [es_jefe_falso_de_tesoro hmc2] at hjefe
      cases hjefe

theorem claim_C3_witness :
    ((∀ ph ∈ mapaC2.habitaciones, ph.2.contenido = none) ∧
      habitaciones_disponibles mapaC2 ≠ [] ∧
      (buscar mapaC2.habitaciones (elegir_esquina mapaC2 dibujos0)).isSome = true) ∧
    contenido_en (colocar_contenido mapaC2 dibujos0).habitaciones
      (elegir_esquina mapaC2 dibujos0) = some (some (crear_jefe 0 0)) :=
  ⟨⟨by decide, by decide, by rfl⟩,
    (claim_C3_colocacion_jefe mapaC2 dibujos0 (by decide) (by decide)).1 (by rfl)⟩

/-! ## Facts about encounters and exploration -/

theorem combate_detenido (prob : ℚ) (ataque : Int) (lg ld : Int → String)
    (fuel : Nat) (mv : Int) (e : Explorador) (draws : Nat → ℚ) (i : Nat)
    (acc : List String) (h : ¬ (0 < mv ∧ esta_vivo e = true)) :
    combate prob ataque lg ld fuel mv e draws i acc = some (mv, e, acc, i) := by
  cases fuel <;> simp only [combate, if_neg h]

theorem combate_posicion (prob : ℚ) (ataque : Int) (lg ld : Int → String) :
    ∀ (fuel : Nat) (mv : Int) (e : Explorador) (draws : Nat → ℚ) (i : Nat)
      (acc : List String) (mv' : Int) (e' : Explorador) (acc' : List String) (i' : Nat),
      combate prob ataque lg ld fuel mv e draws i acc = some (mv', e', acc', i') →
      e'.posicion_actual = e.posicion_actual := by
  intro fuel
  induction fuel with
  | zero =>
    intro mv e draws i acc mv' e' acc' i' h
    simp only [combate] at h
    split at h
    · cases h
    · injection h with h1
      injection h1 with h1 h2
      injection h2 with h2 h3
      rw [← h2]
  | succ f ih =>
    intro mv e draws i acc mv' e' acc' i' h
    simp only [combate] at h
    split at h
    · split at h
      · exact ih _ _ _ _ _ _ _ _ _ h
      · have hrec := ih _ _ _ _ _ _ _ _ _ h
        rw [hrec]
        rfl
    · injection h with h1
      injection h1 with h1 h2
      injection h2 with h2 h3
      rw [← h2]

theorem interactuar_posicion (c : ContenidoHabitacion) (e : Explorador)
    (draws : Nat → ℚ) (i fuel : Nat) (e' : Explorador) (res : String) (i' : Nat)
    (h : interactuar c e draws i fuel = some (e', res, i')) :
    e'.posicion_actual = e.posicion_actual := by
  match c with
  | ContenidoHabitacion.tesoro r =>
    simp only [interactuar] at h
    injection h with h1
    injection h1 with h1 h2
    rw [← h1]
  | ContenidoHabitacion.monstruo nm v a =>
    simp only [interactuar, monstruo_interactuar] at h
    match hcomb : combate (3 / 5) a
        (fun mv => "Atacas a " ++ nm ++ ". Vida del enemigo: " ++ toString mv)
        (fun ev => nm ++ " te inflinge " ++ toString a ++ " de daño. Tu vida: " ++ toString ev)
        fuel v e draws i ["Alerta, te enfrentas a " ++ nm ++ " :o"] with
    | none => rw [hcomb] at h; cases h
    | some (mv0, e0, acc0, i0) =>
      rw [hcomb] at h
      injection h with h1
      injection h1 with h1 h2
      rw [← h1]
      exact combate_posicion _ _ _ _ _ _ _ _ _ _ _ _ _ _ hcomb
  | ContenidoHabitacion.jefe nm v a r =>
    simp only [interactuar, jefe_interactuar] at h
    match hcomb : combate (2 / 5) a
        (fun jv => "Atacaste a " ++ nm ++ ". Vida del jefe: " ++ toString jv)
        (fun ev => "El jefe " ++ nm ++ " te inflinge " ++ toString a
          ++ " de daño. Tu vida: " ++ toString ev)
        fuel v e draws i
        ["PELIGRO! Te enfrentas a uno de los jefes de la mazmorra, " ++ nm ++ " :o"] with
    | none => rw [hcomb] at h; cases h
    | some (mv0, e0, acc0, i0) =>
      rw [hcomb] at h
      dsimp only at h
      have hpos0 : e0.posicion_actual = e.posicion_actual :=
        combate_posicion _ _ _ _ _ _ _ _ _ _ _ _ _ _ hcomb
      split at h
      · injection h with h1
        injection h1 with h1 h2
        rw [← h1]
        exact hpos0
      · split at h
        · injection h with h1
          injection h1 with h1 h2
          rw [← h1]
          exact hpos0
        · injection h with h1
          injection h1 with h1 h2
          rw [← h1]
          exact hpos0

theorem explorar_con_contenido (m : Mapa) (e : Explorador) (draws : Nat → ℚ)
    (i fuel : Nat) (hab : Habitacion) (c : ContenidoHabitacion)
    (e' : Explorador) (res : String) (i' : Nat)
    (hhab : buscar m.habitaciones e.posicion_actual = some hab)
    (hcont : hab.contenido = some c)
    (hint : interactuar c e draws i fuel = some (e', res, i')) :
    explorar_habitacion m e draws i fuel =
      some (e', mapa_tras_explorar m e.posicion_actual, res, i') := by
  unfold explorar_habitacion
  rw [hhab]
  simp only [hcont, hint]
  rfl

theorem contenido_tras_limpiar (habs : List (Pos × Habitacion)) (p : Pos)
    (hab : Habitacion) (h : buscar habs p = some hab) :
    contenido_en (limpiar_contenido (marcar_visitada habs p) p) p = some none := by
  unfold contenido_en limpiar_contenido marcar_visitada
  rw [buscar_actualizar, if_pos rfl, buscar_actualizar, if_pos rfl, h]
  rfl

/-- C4: facing a monster with `vida=1, ataque=1`, with every relevant draw
below 0.6, `explorar_habitacion` resolves the combat in exactly one round
(one draw consumed), the explorer is returned unchanged, the transcript ends
in the victory line, and the room's content is cleared. -/
theorem claim_C4_monstruo_un_golpe (m : Mapa) (e : Explorador) (draws : Nat → ℚ)
    (i fuel : Nat) (nombre : String) (hab : Habitacion)
    (hhab : buscar m.habitaciones e.posicion_actual = some hab)
    (hcont : hab.contenido = some (ContenidoHabitacion.monstruo nombre 1 1))
    (hvivo : 0 < e.vida) (hdraw : draws i < 3 / 5) (hfuel : 0 < fuel) :
    explorar_habitacion m e draws i fuel =
      some (e, mapa_tras_explorar m e.posicion_actual,
        String.intercalate "\n" ["Alerta, te enfrentas a " ++ nombre ++ " :o",
          "Atacas a " ++ nombre ++ ". Vida del enemigo: " ++ "0",
          "Has derrotado a " ++ nombre ++ " :3"], i + 1) ∧
    contenido_en (mapa_tras_explorar m e.posicion_actual).habitaciones
      e.posicion_actual = some none := by
  obtain ⟨f, rfl⟩ : ∃ f, fuel = f + 1 := ⟨fuel - 1, by omega⟩
  have hviv : esta_vivo e = true := by
    simp only [esta_vivo, gt_iff_lt, decide_eq_true_eq]
    exact hvivo
  have hcomb : combate (3 / 5) 1
      (fun mv => "Atacas a " ++ nombre ++ ". Vida del enemigo: " ++ toString mv)
      (fun ev => nombre ++ " te inflinge " ++ toString (1 : Int)
        ++ " de daño. Tu vida: " ++ toString ev)
      (f + 1) 1 e draws i ["Alerta, te enfrentas a " ++ nombre ++ " :o"] =
      some ((1 : Int) - 1, e, ["Alerta, te enfrentas a " ++ nombre ++ " :o"] ++
        ["Atacas a " ++ nombre ++ ". Vida del enemigo: " ++ toString ((1 : Int) - 1)],
        i + 1) := by
    simp only [combate]
    rw [if_pos ⟨by norm_num, hviv⟩, if_pos hdraw]
    exact combate_detenido _ _ _ _ f ((1 : Int) - 1) e draws (i + 1) _ (by norm_num)
  have hint : interactuar (ContenidoHabitacion.monstruo nombre 1 1) e draws i (f + 1) =
      some (e, String.intercalate "\n" ["Alerta, te enfrentas a " ++ nombre ++ " :o",
        "Atacas a " ++ nombre ++ ". Vida del enemigo: " ++ "0",
        "Has derrotado a " ++ nombre ++ " :3"], i + 1) := by
    simp only [interactuar, monstruo_interactuar]
    rw [hcomb]
    dsimp only
    rw [if_neg (not_not_intro hviv)]
    rfl
  exact ⟨explorar_con_contenido m e draws i (f + 1) hab _ e _ (i + 1) hhab hcont hint,
    contenido_tras_limpiar m.habitaciones e.posicion_actual hab hhab⟩

theorem claim_C4_witness :
    (buscar mapaMonstruo.habitaciones exploradorEj.posicion_actual =
        some (Habitacion.mk 0 0 0 false
          (some (ContenidoHabitacion.monstruo "Goblin" 1 1)) [] false) ∧
      (0 : Int) < exploradorEj.vida ∧ dibujosCombate 0 < 3 / 5 ∧ 0 < 1) ∧
    (explorar_habitacion mapaMonstruo exploradorEj dibujosCombate 0 1 =
      some (exploradorEj, mapa_tras_explorar mapaMonstruo exploradorEj.posicion_actual,
        String.intercalate "\n" ["Alerta, te enfrentas a Goblin :o",
          "Atacas a Goblin. Vida del enemigo: 0",
          "Has derrotado a Goblin :3"], 0 + 1) ∧
      contenido_en (mapa_tras_explorar mapaMonstruo
        exploradorEj.posicion_actual).habitaciones
        exploradorEj.posicion_actual = some none) :=
  ⟨⟨rfl, by decide, by norm_num [dibujosCombate], by decide⟩,
    claim_C4_monstruo_un_golpe mapaMonstruo exploradorEj dibujosCombate 0 1 "Goblin"
      (Habitacion.mk 0 0 0 false (some (ContenidoHabitacion.monstruo "Goblin" 1 1)) [] false)
      rfl rfl (by decide) (by norm_num [dibujosCombate]) (by decide)⟩

/-- C6: for a room holding any content (treasure, monster or boss), after one
completed `explorar_habitacion` call the room's content is cleared, and a
second call on the same room returns the empty-room message and returns the
explorer and the map exactly as they were (re-marking the visited flag is the
identity) — whatever the first call's outcome was. -/
theorem claim_C6_interaccion_unica (m : Mapa) (e : Explorador) (draws : Nat → ℚ)
    (i fuel : Nat) (hab : Habitacion) (c : ContenidoHabitacion)
    (e' : Explorador) (m' : Mapa) (s : String) (i' : Nat)
    (hhab : buscar m.habitaciones e.posicion_actual = some hab)
    (hcont : hab.contenido = some c)
    (h : explorar_habitacion m e draws i fuel = some (e', m', s, i')) :
    contenido_en m'.habitaciones e'.posicion_actual = some none ∧
    explorar_habitacion m' e' draws i' fuel =
      some (e', m', "La habitacion esta vacia... solo hay polvo.", i') := by
  unfold explorar_habitacion at h
  rw [hhab] at h
  simp only [hcont] at h
  match hint : interactuar c e draws i fuel with
  | none => rw [hint] at h; cases h
  | some (e0, res0, i0) =>
    rw [hint] at h
    dsimp only at h
    injection h with h1
    injection h1 with he h2
    injection h2 with hm h3
    injection h3 with hs hi
    subst he
    subst hm
    subst hs
    subst hi
    have hpos : e0.posicion_actual = e.posicion_actual :=
      interactuar_posicion c e draws i fuel e0 res0 i0 hint
    have hb' : buscar (limpiar_contenido (marcar_visitada m.habitaciones
        e.posicion_actual) e.posicion_actual) e.posicion_actual =
        some { hab with visitada := true, contenido := none } := by
      unfold limpiar_contenido marcar_visitada
      rw [buscar_actualizar, if_pos rfl, buscar_actualizar, if_pos rfl, hhab]
      rfl
    have hmark : marcar_visitada (limpiar_contenido (marcar_visitada m.habitaciones
        e.posicion_actual) e.posicion_actual) e.posicion_actual =
        limpiar_contenido (marcar_visitada m.habitaciones e.posicion_actual)
          e.posicion_actual := by
      unfold marcar_visitada limpiar_contenido
      rw [actualizar_actualizar, actualizar_actualizar, actualizar_actualizar]
    constructor
    · rw [hpos]
      exact contenido_tras_limpiar m.habitaciones e.posicion_actual hab hhab
    · unfold explorar_habitacion
      rw [hpos]
      dsimp only
      rw [hb']
      dsimp only
      rw [hmark]

theorem claim_C6_witness :
    (buscar mapaTesoro.habitaciones exploradorEj.posicion_actual =
        some (Habitacion.mk 0 0 0 false (some (ContenidoHabitacion.tesoro
          (Objeto.mk "Gema Preciosa" 50 "Una gema valiosa"))) [] false) ∧
      explorar_habitacion mapaTesoro exploradorEj dibujosCombate 0 1 =
        some ({ exploradorEj with
            inventario := [Objeto.mk "Gema Preciosa" 50 "Una gema valiosa"] },
          mapa_tras_explorar mapaTesoro (0, 0),
          "Has encontrado un tesoro! Obtuviste -> Gema Preciosa", 0)) ∧
    (contenido_en (mapa_tras_explorar mapaTesoro (0, 0)).habitaciones
        ({ exploradorEj with
          inventario := [Objeto.mk "Gema Preciosa" 50 "Una gema valiosa"] } :
          Explorador).posicion_actual = some none ∧
      explorar_habitacion (mapa_tras_explorar mapaTesoro (0, 0))
        { exploradorEj with
          inventario := [Objeto.mk "Gema Preciosa" 50 "Una gema valiosa"] }
        dibujosCombate 0 1 =
        some ({ exploradorEj with
            inventario := [Objeto.mk "Gema Preciosa" 50 "Una gema valiosa"] },
          mapa_tras_explorar mapaTesoro (0, 0),
          "La habitacion esta vacia... solo hay polvo.", 0)) :=
  ⟨⟨rfl, rfl⟩,
    claim_C6_interaccion_unica mapaTesoro exploradorEj dibujosCombate 0 1
      (Habitacion.mk 0 0 0 false (some (ContenidoHabitacion.tesoro
        (Objeto.mk "Gema Preciosa" 50 "Una gema valiosa"))) [] false)
      (ContenidoHabitacion.tesoro (Objeto.mk "Gema Preciosa" 50 "Una gema valiosa"))
      { exploradorEj with inventario := [Objeto.mk "Gema Preciosa" 50 "Una gema valiosa"] }
      (mapa_tras_explorar mapaTesoro (0, 0))
      "Has encontrado un tesoro! Obtuviste -> Gema Preciosa" 0
      rfl rfl rfl⟩

/-! ## Claims about the explorer -/

/-- C7: `mover` returns `false` and changes nothing when there is no room at
the current position or the direction is not a key of the room's connections;
otherwise it returns `true` and updates only the position, to the destination
room's coordinates — health and inventory are untouched, and the map is not
touched at all (`mover` returns no map). -/
theorem claim_C7_mover (m : Mapa) (e : Explorador) (direccion : String) :
    (buscar m.habitaciones e.posicion_actual = none →
      mover m e direccion = (false, e)) ∧
    (∀ hab, buscar m.habitaciones e.posicion_actual = some hab →
      buscar hab.conexiones direccion = none →
      mover m e direccion = (false, e)) ∧
    (∀ hab destino_pos destino,
      buscar m.habitaciones e.posicion_actual = some hab →
      buscar hab.conexiones direccion = some destino_pos →
      buscar m.habitaciones destino_pos = some destino →
      mover m e direccion = (true, { e with posicion_actual := (destino.x, destino.y) }) ∧
      (mover m e direccion).2.vida = e.vida ∧
      (mover m e direccion).2.inventario = e.inventario) := by
  refine ⟨?_, ?_, ?_⟩
  · intro h
    unfold mover
    rw [h]
  · intro hab h1 h2
    unfold mover
    rw [h1]
    dsimp only
    rw [h2]
  · intro hab destino_pos destino h1 h2 h3
    have hmov : mover m e direccion =
        (true, { e with posicion_actual := (destino.x, destino.y) }) := by
      unfold mover
      rw [h1]
      dsimp only
      rw [h2]
      dsimp only
      rw [h3]
    exact ⟨hmov, by rw [hmov], by rw [hmov]⟩

theorem claim_C7_witness :
    mover mapaC2 exploradorEj "oeste" = (false, exploradorEj) ∧
    mover mapaC2 exploradorEj "este" =
      (true, { exploradorEj with posicion_actual := (1, 0) }) :=
  ⟨(claim_C7_mover mapaC2 exploradorEj "oeste").2.1
      (Habitacion.mk 0 0 0 true none [("este", (1, 0))] false) rfl rfl,
    ((claim_C7_mover mapaC2 exploradorEj "este").2.2
      (Habitacion.mk 0 0 0 true none [("este", (1, 0))] false) (1, 0)
      (Habitacion.mk 1 1 0 false none [("oeste", (0, 0))] false) rfl rfl rfl).1⟩

/-- C8: `recibir_dano` never leaves the health negative — it subtracts and
floors at 0 (taking 0 exactly when the subtraction would go negative) — and
on the resulting state `esta_vivo` is false exactly when the health is 0. -/
theorem claim_C8_piso_de_vida (e : Explorador) (c : Int) (hc : 0 ≤ c) :
    0 ≤ (recibir_dano e c).vida ∧
    (e.vida - c < 0 → (recibir_dano e c).vida = 0) ∧
    (0 ≤ e.vida - c → (recibir_dano e c).vida = e.vida - c) ∧
    (esta_vivo (recibir_dano e c) = false ↔ (recibir_dano e c).vida = 0) := by
  unfold recibir_dano esta_vivo
  dsimp only
  refine ⟨?_, ?_, ?_, ?_⟩
  · split <;> omega
  · intro h
    rw [if_pos h]
  · intro h
    rw [if_neg (by omega)]
  · simp only [gt_iff_lt, decide_eq_false_iff_not, not_lt]
    split <;> omega

theorem claim_C8_witness :
    (0 : Int) ≤ 7 ∧
    (0 ≤ (recibir_dano exploradorEj 7).vida ∧
      (exploradorEj.vida - 7 < 0 → (recibir_dano exploradorEj 7).vida = 0) ∧
      (0 ≤ exploradorEj.vida - 7 → (recibir_dano exploradorEj 7).vida =
        exploradorEj.vida - 7) ∧
      (esta_vivo (recibir_dano exploradorEj 7) = false ↔
        (recibir_dano exploradorEj 7).vida = 0)) :=
  ⟨by decide, claim_C8_piso_de_vida exploradorEj 7 (by decide)⟩
